import Mathlib

/-!
Shallow embedding of `src/web_server_simple.py`, a Flask demo API serving
synthetic review-tracking metrics.

Modelling conventions:
* Python `random.randint` draws are read from an integer stream `σi : ℕ → ℤ`
  and `random.uniform` / `random.random` draws from a rational stream
  `σr : ℕ → ℚ`; index `k` is the `k`-th value the handler draws from that
  source, in the order the source code draws them.
* `datetime.now()` is modelled as an integer clock value `today : ℤ`
  counting days; `timedelta(days = d)` subtraction is integer subtraction,
  and a `TrendPoint`'s `date` field holds the day number that the Python
  code formats with `strftime`.
* Python floats are modelled as rationals.  `round(x, 2)` is `round2` below;
  the float products `int(48532 * 0.45)` etc. in `get_rating_distribution`
  equal the exact rational floors at these operand values (each product is
  at least 0.04 away from an integer, far beyond double rounding error), so
  they are modelled by natural-number division.
* Flask returns HTTP status 200 both for a plain string (`text/html` body)
  and for `jsonify` results; `Body` records which of the two a route
  produced.
-/

namespace WebServer

/-- Python `round(x, 2)`: round `100 * x` to the nearest integer and divide
by 100.  (Tie-breaking at exact half-hundredths differs between this
definition and float banker's rounding; no claim depends on ties.) -/
def round2 (x : ℚ) : ℚ := ((round (100 * x) : ℤ) : ℚ) / 100

/-- The `metrics` dictionary built by `generate_demo_data`. -/
structure Metrics where
  total_locations : ℤ
  total_reviews : ℤ
  average_rating : ℚ
  reviews_removed_today : ℤ
  reviews_added_24h : ℤ
  change_7d_reviews : ℤ
  change_7d_rating : ℚ
deriving Repr, DecidableEq

/-- `generate_demo_data` from the source, with the five `randint` draws and
two `uniform` draws passed explicitly in the order the code draws them:
`daily_change = randint(-50, 250)`, `rating_change = uniform(-0.2, 0.1)`,
then the three `randint`s and the final `uniform` inside the dictionary. -/
def generate_demo_data (daily_change : ℤ) (rating_change : ℚ)
    (removed_today added_24h change7d : ℤ) (change7d_rating : ℚ) : Metrics :=
  { total_locations := 120
    total_reviews := 48532 + daily_change
    average_rating := round2 (4.3 + rating_change)
    reviews_removed_today := removed_today
    reviews_added_24h := added_24h
    change_7d_reviews := change7d
    change_7d_rating := round2 change7d_rating }

/-- The HTML string returned by the `home` route. -/
def homePage : String :=
  "<h1>Law Firm Review Tracking API</h1>\n" ++
  "<p>Dashboard API is running!</p>\n" ++
  "<p>Connect your dashboard to: <code>https://[this-server-url]</code></p>\n" ++
  "<h3>Available Endpoints:</h3>"

/-- The `days` lookup in `get_trends`: a dict `.get(period, 7)`, i.e. an
equality chain with default 7. -/
def daysOf (p : String) : ℕ :=
  if p = "24h" then 1
  else if p = "7d" then 7
  else if p = "30d" then 30
  else if p = "90d" then 90
  else 7

/-- One element of the trends list. -/
structure TrendPoint where
  date : ℤ
  reviews_added : ℤ
  reviews_removed : ℤ
  average_rating : ℚ
deriving Repr, DecidableEq

/-- Loop body of `get_trends`, at loop index `i` (of `days` iterations):
`date = today - timedelta(days = days - i - 1)`, then `randint(30, 80)`,
`randint(0, 10)` and `uniform(-0.2, 0.2)` draws.  Iteration `i` consumes
integer draws `2*i` and `2*i + 1` and rational draw `i`. -/
def trendPoint (σi : ℕ → ℤ) (σr : ℕ → ℚ) (today : ℤ) (days i : ℕ) : TrendPoint :=
  { date := today - ((days : ℤ) - (i : ℤ) - 1)
    reviews_added := σi (2 * i)
    reviews_removed := σi (2 * i + 1)
    average_rating := round2 (4.3 + σr i) }

/-- `get_trends`: `days` iterations of the loop body, in order. -/
def get_trends (p : String) (σi : ℕ → ℤ) (σr : ℕ → ℚ) (today : ℤ) :
    List TrendPoint :=
  (List.range (daysOf p)).map (trendPoint σi σr today (daysOf p))

/-- One element of the top-locations list. -/
structure LocationSummary where
  name : String
  city : String
  rating : ℚ
  total_reviews : ℤ
  change : ℤ
  status : String
deriving Repr, DecidableEq

/-- The hard-coded `cities` table of `get_top_locations`:
(name, city, rating, reviews). -/
def cities : List (String × String × ℚ × ℤ) :=
  [ ("Miami Downtown", "Miami", 4.8, 1245)
  , ("Orlando Central", "Orlando", 4.7, 892)
  , ("Tampa Bay", "Tampa", 4.6, 756)
  , ("Jacksonville North", "Jacksonville", 4.5, 623)
  , ("Fort Lauderdale", "Fort Lauderdale", 4.5, 589)
  , ("West Palm Beach", "West Palm Beach", 4.4, 456)
  , ("Tallahassee Main", "Tallahassee", 4.4, 412)
  , ("Gainesville", "Gainesville", 4.3, 389)
  , ("Naples", "Naples", 4.3, 356)
  , ("Sarasota", "Sarasota", 4.2, 298) ]

/-- The fixed affix glued before every location name. -/
def lawFirmTag : String := "Law Firm - "

/-- The fixed affix glued after every top-location city. -/
def flTag : String := ", FL"

/-- Loop of `get_top_locations` over `cities[:10]`: iteration `i` draws
`change = randint(-5, 20)` (integer draw `i`) and derives
`status = 'Excellent' if rating >= 4.5 else 'Good' if rating >= 4.0 else
'Monitor'`. -/
def topLoop (σi : ℕ → ℤ) : ℕ → List (String × String × ℚ × ℤ) →
    List LocationSummary
  | _, [] => []
  | i, (name, city, rating, reviews) :: rest =>
      { name := lawFirmTag ++ name
        city := city ++ flTag
        rating := rating
        total_reviews := reviews
        change := σi i
        status :=
          if rating ≥ 4.5 then "Excellent"
          else if rating ≥ 4.0 then "Good"
          else "Monitor" } :: topLoop σi (i + 1) rest

/-- `get_top_locations`: the loop over the slice `cities[:10]`. -/
def get_top_locations (σi : ℕ → ℤ) : List LocationSummary :=
  topLoop σi 0 (cities.take 10)

/-- One element of the attention list. -/
structure AttentionLocation where
  name : String
  city : String
  issue : String
  rating : ℚ
  reviews_removed : ℤ
  priority : String
deriving Repr, DecidableEq

/-- The hard-coded `problem_locations` table of `get_attention_locations`:
(name, city, rating, removed, issue). -/
def problem_locations : List (String × String × ℚ × ℤ × String) :=
  [ ("Lakeland Branch", "Lakeland", 3.2, 8, "Multiple Reviews Removed")
  , ("Coral Gables", "Coral Gables", 3.5, 3, "Rating Drop")
  , ("Fort Myers", "Fort Myers", 3.4, 2, "Low Rating")
  , ("Clearwater", "Clearwater", 3.6, 4, "Reviews Removed")
  , ("Ocala", "Ocala", 3.3, 1, "Low Rating") ]

/-- `get_attention_locations`: no randomness; priority is
`'Urgent' if removed > 5 or rating < 3.3 else 'High' if rating < 3.5 else
'Medium'`. -/
def get_attention_locations : List AttentionLocation :=
  problem_locations.map fun (name, city, rating, removed, issue) =>
    { name := lawFirmTag ++ name
      city := city
      issue := issue
      rating := rating
      reviews_removed := removed
      priority :=
        if removed > 5 ∨ rating < 3.3 then "Urgent"
        else if rating < 3.5 then "High"
        else "Medium" }

/-- The five star-count buckets of `/api/rating-distribution`. -/
structure RatingDistribution where
  five_star : ℕ
  four_star : ℕ
  three_star : ℕ
  two_star : ℕ
  one_star : ℕ
deriving Repr, DecidableEq

/-- `get_rating_distribution`: `int(total * p)` for the five fixed
percentages of `total = 48532`, modelled as exact floors (see header note
on float agreement). -/
def get_rating_distribution : RatingDistribution :=
  { five_star := 48532 * 45 / 100
    four_star := 48532 * 30 / 100
    three_star := 48532 * 15 / 100
    two_star := 48532 * 7 / 100
    one_star := 48532 * 3 / 100 }

/-- An alert object of `/api/alerts/recent`. -/
structure Alert where
  date : ℤ
  location : String
  type : String
  message : String
deriving Repr, DecidableEq

/-- `get_recent_alerts`: one `random.random()` draw `r`; a single fixed
alert when `r > 0.7`, else the empty list. -/
def get_recent_alerts (r : ℚ) (now : ℤ) : List Alert :=
  if r > 0.7 then
    [ { date := now
        location := lawFirmTag ++ "Lakeland Branch"
        type := "reviews_removed"
        message := "8 reviews removed in the last 24 hours" } ]
  else []

/-- The object returned by `/api/export/excel`. -/
structure ExportResult where
  success : Bool
  message : String
  filename : String
deriving Repr, DecidableEq

/-- `export_excel`: constant payload plus a clock-stamped filename. -/
def export_excel (now : ℤ) : ExportResult :=
  { success := true
    message := "Report generation simulated"
    filename := "review_report_" ++ toString now ++ ".xlsx" }

/-- The exposed routes of the app. -/
inductive Route where
  | home
  | metrics
  | trends (period : String)
  | locationsTop
  | locationsAttention
  | ratingDistribution
  | alertsRecent
  | exportExcel
deriving Repr, DecidableEq

/-- A response body: either a raw HTML string (the `home` route) or a
`jsonify`-serialized payload. -/
inductive Body where
  | html (s : String)
  | jsonMetrics (m : Metrics)
  | jsonTrends (t : List TrendPoint)
  | jsonLocations (l : List LocationSummary)
  | jsonAttention (l : List AttentionLocation)
  | jsonDistribution (d : RatingDistribution)
  | jsonAlerts (a : List Alert)
  | jsonExport (e : ExportResult)
deriving Repr, DecidableEq

/-- Whether a body was produced by `jsonify` (rather than a raw HTML
string). -/
def Body.isJson : Body → Bool
  | .html _ => false
  | _ => true

/-- An HTTP response: status code plus body. -/
structure Response where
  status : ℕ
  body : Body
deriving Repr, DecidableEq

/-- Per-request dispatch: each Flask handler, given the two random streams
and the clock.  Flask answers every one of these with status 200. -/
def routeResponse (route : Route) (σi : ℕ → ℤ) (σr : ℕ → ℚ) (today : ℤ) :
    Response :=
  match route with
  | .home => { status := 200, body := .html homePage }
  | .metrics =>
      { status := 200
        body := .jsonMetrics
          (generate_demo_data (σi 0) (σr 0) (σi 1) (σi 2) (σi 3) (σr 1)) }
  | .trends p =>
      { status := 200, body := .jsonTrends (get_trends p σi σr today) }
  | .locationsTop =>
      { status := 200, body := .jsonLocations (get_top_locations σi) }
  | .locationsAttention =>
      { status := 200, body := .jsonAttention get_attention_locations }
  | .ratingDistribution =>
      { status := 200, body := .jsonDistribution get_rating_distribution }
  | .alertsRecent =>
      { status := 200, body := .jsonAlerts (get_recent_alerts (σr 0) today) }
  | .exportExcel =>
      { status := 200, body := .jsonExport (export_excel today) }

/-- How many integer (`randint`) draws each route consumes. -/
def intDraws : Route → ℕ
  | .metrics => 4
  | .trends p => 2 * daysOf p
  | .locationsTop => 10
  | _ => 0

/-- How many rational (`uniform` / `random`) draws each route consumes. -/
def ratDraws : Route → ℕ
  | .metrics => 2
  | .trends p => daysOf p
  | .alertsRecent => 1
  | _ => 0

/-- All-zero integer stream, used to instantiate universally quantified
statements at a concrete input. -/
def zStreamInt : ℕ → ℤ := fun _ => 0

/-- All-zero rational stream, used to instantiate universally quantified
statements at a concrete input. -/
def zStreamRat : ℕ → ℚ := fun _ => 0

/-- An integer stream that agrees with `zStreamInt` only on indices below 4,
used to instantiate two-run equality statements at a concrete input. -/
def altStreamInt : ℕ → ℤ := fun n => if n < 4 then 0 else 99

/-- The first element of `get_attention_locations`, spelled out. -/
def attnFirst : AttentionLocation :=
  { name := "Law Firm - Lakeland Branch"
    city := "Lakeland"
    issue := "Multiple Reviews Removed"
    rating := 3.2
    reviews_removed := 8
    priority := "Urgent" }

/-- The first element of `get_top_locations zStreamInt`, spelled out. -/
def topFirst : LocationSummary :=
  { name := "Law Firm - Miami Downtown"
    city := "Miami, FL"
    rating := 4.8
    total_reviews := 1245
    change := 0
    status := "Excellent" }

/- ### Helper lemmas -/

/-- `round2` agrees with rounding `100 * x` via the floor of `100 * x + 1/2`. -/
theorem round2_def (x : ℚ) : round2 x = ((⌊100 * x + 1 / 2⌋ : ℤ) : ℚ) / 100 := by
  rw [round2, round_eq]

/-- `round2` is monotone. -/
theorem round2_mono {x y : ℚ} (h : x ≤ y) : round2 x ≤ round2 y := by
  rw [round2_def, round2_def]
  have hf : ⌊100 * x + 1 / 2⌋ ≤ ⌊100 * y + 1 / 2⌋ := Int.floor_mono (by linarith)
  have hc : ((⌊100 * x + 1 / 2⌋ : ℤ) : ℚ) ≤ ((⌊100 * y + 1 / 2⌋ : ℤ) : ℚ) := by
    exact_mod_cast hf
  linarith

/-- The trend window always has at least one day. -/
theorem daysOf_pos (p : String) : 1 ≤ daysOf p := by
  unfold daysOf
  split_ifs <;> norm_num

/-- The spelled-out first entry is indeed the head of
`get_top_locations zStreamInt`. -/
theorem topFirst_mem : topFirst ∈ get_top_locations zStreamInt := by
  simp only [get_top_locations, cities, topLoop, topFirst, zStreamInt,
    lawFirmTag, flTag, List.take, List.mem_cons]
  norm_num
  exact ⟨rfl, rfl⟩

/- ### Claims -/

/-- C1: the `/api/rating-distribution` response has exactly the five bucket
counts `int(48532 * 0.45) = 21839`, `int(48532 * 0.30) = 14559`,
`int(48532 * 0.15) = 7279`, `int(48532 * 0.07) = 3397` and
`int(48532 * 0.03) = 1455` for the keys `5_star` … `1_star`, and the sum of
the five buckets is at most 48532 (it is 48529). -/
theorem rating_distribution_spec :
    get_rating_distribution = ⟨21839, 14559, 7279, 3397, 1455⟩ ∧
    get_rating_distribution.five_star + get_rating_distribution.four_star +
      get_rating_distribution.three_star + get_rating_distribution.two_star +
      get_rating_distribution.one_star ≤ 48532 := by
  constructor <;> decide

/-- C2: for every period string `p`, the `/api/trends/<p>` response has
exactly 1 entry for `24h`, 7 for `7d`, 30 for `30d`, 90 for `90d`, and 7
for every other string (the unrecognized-period default). -/
theorem trends_length_spec (p : String) (σi : ℕ → ℤ) (σr : ℕ → ℚ)
    (today : ℤ) :
    (get_trends p σi σr today).length =
      if p = "24h" then 1
      else if p = "7d" then 7
      else if p = "30d" then 30
      else if p = "90d" then 90
      else 7 := by
  simp [get_trends, daysOf]

/-- C4: for every random draw and clock value, the `/api/alerts/recent`
response is either the empty list or a list of exactly one alert. -/
theorem alerts_spec (r : ℚ) (now : ℤ) :
    get_recent_alerts r now = [] ∨
      ∃ a : Alert, get_recent_alerts r now = [a] := by
  unfold get_recent_alerts
  split
  · right
    exact ⟨_, rfl⟩
  · left
    rfl

/-- C7: the `/api/locations/attention` response has exactly 5 entries, and
each entry's priority is `Urgent` when `reviews_removed > 5` or
`rating < 3.3`, otherwise `High` when `rating < 3.5`, otherwise `Medium`. -/
theorem attention_spec :
    get_attention_locations.length = 5 ∧
    ∀ loc ∈ get_attention_locations,
      loc.priority =
        if loc.reviews_removed > 5 ∨ loc.rating < 3.3 then "Urgent"
        else if loc.rating < 3.5 then "High"
        else "Medium" := by
  constructor
  · rfl
  · intro loc hloc
    simp only [get_attention_locations, problem_locations, List.map_cons,
      List.map_nil, List.mem_cons, List.not_mem_nil, or_false] at hloc
    rcases hloc with h | h | h | h | h <;> subst h <;> norm_num

/-- C7 witness: the first attention entry, instantiated concretely. -/
theorem attention_spec_witness :
    attnFirst.priority =
      if attnFirst.reviews_removed > 5 ∨ attnFirst.rating < 3.3 then "Urgent"
      else if attnFirst.rating < 3.5 then "High"
      else "Medium" :=
  attention_spec.2 attnFirst (by
    simp only [get_attention_locations, problem_locations, attnFirst,
      lawFirmTag, List.map_cons, List.map_nil, List.mem_cons]
    norm_num
    rfl)

/-- C3: the `/api/locations/top` response has at most 10 entries, and every
entry's status is `Excellent` iff its rating is at least 4.5, `Good` iff its
rating is in `[4.0, 4.5)`, and `Monitor` otherwise; in particular every
status is one of the three strings. -/
theorem top_locations_status_spec (σi : ℕ → ℤ) :
    (get_top_locations σi).length ≤ 10 ∧
    ∀ loc ∈ get_top_locations σi,
      (loc.status = "Excellent" ∨ loc.status = "Good" ∨
        loc.status = "Monitor") ∧
      (loc.rating ≥ 4.5 → loc.status = "Excellent") ∧
      (4.0 ≤ loc.rating ∧ loc.rating < 4.5 → loc.status = "Good") ∧
      (loc.rating < 4.0 → loc.status = "Monitor") := by
  constructor
  · simp [get_top_locations, cities, topLoop]
  · intro loc hloc
    simp only [get_top_locations, cities, topLoop, List.take,
      List.mem_cons, List.not_mem_nil, or_false] at hloc
    rcases hloc with h | h | h | h | h | h | h | h | h | h <;> subst h <;>
      norm_num

/-- C3 witness: the first top-locations entry, instantiated concretely. -/
theorem top_locations_status_spec_witness :
    topFirst.rating ≥ 4.5 ∧ topFirst.status = "Excellent" := by
  refine ⟨by norm_num [topFirst], ?_⟩
  exact ((top_locations_status_spec zStreamInt).2 topFirst topFirst_mem).2.1
    (by norm_num [topFirst])

/-- C10: the ratings in the `/api/locations/top` response are monotonically
non-increasing (4.8 down to 4.2), every name carries the fixed
`Law Firm - ` prefix string, and every city carries the fixed `, FL`
suffix string. -/
theorem top_locations_order_spec (σi : ℕ → ℤ) :
    List.Chain' (fun a b => b.rating ≤ a.rating) (get_top_locations σi) ∧
    ∀ loc ∈ get_top_locations σi,
      (∃ base, loc.name = lawFirmTag ++ base) ∧
      (∃ base, loc.city = base ++ flTag) := by
  constructor
  · simp only [get_top_locations, cities, topLoop, List.take,
      List.chain'_cons, List.chain'_singleton]
    norm_num
  · intro loc hloc
    simp only [get_top_locations, cities, topLoop, List.take,
      List.mem_cons, List.not_mem_nil, or_false] at hloc
    rcases hloc with h | h | h | h | h | h | h | h | h | h <;> subst h <;>
      exact ⟨⟨_, rfl⟩, ⟨_, rfl⟩⟩

/-- C10 witness: the affix property of the first entry, instantiated
concretely. -/
theorem top_locations_order_spec_witness :
    (∃ base, topFirst.name = lawFirmTag ++ base) ∧
    (∃ base, topFirst.city = base ++ flTag) :=
  (top_locations_order_spec zStreamInt).2 topFirst topFirst_mem

/-- C5: whenever the random draws lie in the ranges the source requests
(`randint(-50, 250)`, `uniform(-0.2, 0.1)`, `randint(0, 30)`,
`randint(100, 300)`, `randint(800, 1500)`, `uniform(-0.3, 0.2)`), the
`/api/metrics` response has `total_locations = 120`, `total_reviews` in
`[48482, 48782]`, `reviews_removed_today` in `[0, 30]`,
`reviews_added_24h` in `[100, 300]`, `change_7d_reviews` in `[800, 1500]`,
`average_rating` in `[4.1, 4.4]` and `change_7d_rating` in `[-0.3, 0.2]`. -/
theorem metrics_range_spec (dc : ℤ) (rc : ℚ) (rt a24 c7 : ℤ) (c7r : ℚ)
    (hdc : -50 ≤ dc ∧ dc ≤ 250) (hrc : -0.2 ≤ rc ∧ rc ≤ 0.1)
    (hrt : 0 ≤ rt ∧ rt ≤ 30) (ha : 100 ≤ a24 ∧ a24 ≤ 300)
    (hc7 : 800 ≤ c7 ∧ c7 ≤ 1500) (hc7r : -0.3 ≤ c7r ∧ c7r ≤ 0.2) :
    (generate_demo_data dc rc rt a24 c7 c7r).total_locations = 120 ∧
    (48482 ≤ (generate_demo_data dc rc rt a24 c7 c7r).total_reviews ∧
      (generate_demo_data dc rc rt a24 c7 c7r).total_reviews ≤ 48782) ∧
    (0 ≤ (generate_demo_data dc rc rt a24 c7 c7r).reviews_removed_today ∧
      (generate_demo_data dc rc rt a24 c7 c7r).reviews_removed_today ≤ 30) ∧
    (100 ≤ (generate_demo_data dc rc rt a24 c7 c7r).reviews_added_24h ∧
      (generate_demo_data dc rc rt a24 c7 c7r).reviews_added_24h ≤ 300) ∧
    (800 ≤ (generate_demo_data dc rc rt a24 c7 c7r).change_7d_reviews ∧
      (generate_demo_data dc rc rt a24 c7 c7r).change_7d_reviews ≤ 1500) ∧
    (4.1 ≤ (generate_demo_data dc rc rt a24 c7 c7r).average_rating ∧
      (generate_demo_data dc rc rt a24 c7 c7r).average_rating ≤ 4.4) ∧
    (-0.3 ≤ (generate_demo_data dc rc rt a24 c7 c7r).change_7d_rating ∧
      (generate_demo_data dc rc rt a24 c7 c7r).change_7d_rating ≤ 0.2) := by
  have h41 : round2 4.1 = 4.1 := by norm_num [round2, round_eq]
  have h44 : round2 4.4 = 4.4 := by norm_num [round2, round_eq]
  have h3 : round2 (-0.3) = -0.3 := by norm_num [round2, round_eq]
  have h2 : round2 0.2 = 0.2 := by norm_num [round2, round_eq]
  simp only [generate_demo_data]
  refine ⟨trivial, ⟨by omega, by omega⟩, ⟨hrt.1, hrt.2⟩, ⟨ha.1, ha.2⟩,
    ⟨hc7.1, hc7.2⟩, ⟨?_, ?_⟩, ⟨?_, ?_⟩⟩
  · calc (4.1 : ℚ) = round2 4.1 := h41.symm
      _ ≤ round2 (4.3 + rc) := round2_mono (by have := hrc.1; norm_num at this ⊢; linarith)
  · calc round2 (4.3 + rc) ≤ round2 4.4 :=
        round2_mono (by have := hrc.2; norm_num at this ⊢; linarith)
      _ = 4.4 := h44
  · calc (-0.3 : ℚ) = round2 (-0.3) := h3.symm
      _ ≤ round2 c7r := round2_mono hc7r.1
  · calc round2 c7r ≤ round2 0.2 := round2_mono hc7r.2
      _ = 0.2 := h2

/-- C5 witness: the ranges instantiated at the concrete draw values
`0, 0, 0, 100, 800, 0`. -/
theorem metrics_range_spec_witness :
    (generate_demo_data 0 0 0 100 800 0).total_locations = 120 ∧
    (48482 ≤ (generate_demo_data 0 0 0 100 800 0).total_reviews ∧
      (generate_demo_data 0 0 0 100 800 0).total_reviews ≤ 48782) ∧
    (0 ≤ (generate_demo_data 0 0 0 100 800 0).reviews_removed_today ∧
      (generate_demo_data 0 0 0 100 800 0).reviews_removed_today ≤ 30) ∧
    (100 ≤ (generate_demo_data 0 0 0 100 800 0).reviews_added_24h ∧
      (generate_demo_data 0 0 0 100 800 0).reviews_added_24h ≤ 300) ∧
    (800 ≤ (generate_demo_data 0 0 0 100 800 0).change_7d_reviews ∧
      (generate_demo_data 0 0 0 100 800 0).change_7d_reviews ≤ 1500) ∧
    (4.1 ≤ (generate_demo_data 0 0 0 100 800 0).average_rating ∧
      (generate_demo_data 0 0 0 100 800 0).average_rating ≤ 4.4) ∧
    (-0.3 ≤ (generate_demo_data 0 0 0 100 800 0).change_7d_rating ∧
      (generate_demo_data 0 0 0 100 800 0).change_7d_rating ≤ 0.2) :=
  metrics_range_spec 0 0 0 100 800 0 (by norm_num) (by norm_num)
    (by norm_num) (by norm_num) (by norm_num) (by norm_num)

/-- C6: for every period and every draw, entry `i` of the trends response is
dated `days - i - 1` days before the request day, consecutive entries are
exactly one day apart in strictly increasing order, and the last entry is
dated the request day. -/
theorem trends_dates_spec (p : String) (σi : ℕ → ℤ) (σr : ℕ → ℚ)
    (today : ℤ) :
    (∀ i, i < daysOf p →
      (get_trends p σi σr today)[i]?.map TrendPoint.date =
        some (today - ((daysOf p : ℤ) - (i : ℤ) - 1))) ∧
    List.Chain' (fun a b => a.date < b.date ∧ b.date = a.date + 1)
      (get_trends p σi σr today) ∧
    (get_trends p σi σr today)[daysOf p - 1]?.map TrendPoint.date =
      some today := by
  have hdate : ∀ i, i < daysOf p →
      (get_trends p σi σr today)[i]?.map TrendPoint.date =
        some (today - ((daysOf p : ℤ) - (i : ℤ) - 1)) := by
    intro i hi
    simp [get_trends, List.getElem?_map, List.getElem?_range, hi, trendPoint]
  refine ⟨hdate, ?_, ?_⟩
  · rw [List.chain'_iff_get]
    intro i h
    simp only [get_trends, List.length_map, List.length_range] at h
    simp only [get_trends, List.get_eq_getElem, List.getElem_map,
      List.getElem_range, trendPoint]
    constructor
    · show today - ((daysOf p : ℤ) - (i : ℤ) - 1) <
        today - ((daysOf p : ℤ) - ((i : ℤ) + 1) - 1)
      omega
    · show today - ((daysOf p : ℤ) - ((i : ℤ) + 1) - 1) =
        today - ((daysOf p : ℤ) - (i : ℤ) - 1) + 1
      omega
  · have h1 : daysOf p - 1 < daysOf p := by
      have := daysOf_pos p
      omega
    rw [hdate _ h1]
    have h2 : ((daysOf p - 1 : ℕ) : ℤ) = (daysOf p : ℤ) - 1 :=
      Int.ofNat_sub (daysOf_pos p)
    rw [h2]
    congr 1
    ring

/-- C6 witness: the first and last entry dates of `/api/trends/7d`,
instantiated concretely. -/
theorem trends_dates_spec_witness :
    (get_trends ("7d") zStreamInt zStreamRat 0)[0]?.map TrendPoint.date =
      some (0 - ((daysOf ("7d") : ℤ) - ((0 : ℕ) : ℤ) - 1)) ∧
    (get_trends ("7d") zStreamInt zStreamRat 0)[daysOf ("7d") - 1]?.map
        TrendPoint.date = some 0 :=
  ⟨(trends_dates_spec ("7d") zStreamInt zStreamRat 0).1 0 (by decide),
   (trends_dates_spec ("7d") zStreamInt zStreamRat 0).2.2⟩

/-- The top-locations loop reads the integer stream only at the indices it
draws: positions `i` through `i + length - 1`. -/
theorem topLoop_congr (σi σi' : ℕ → ℤ) (l : List (String × String × ℚ × ℤ)) :
    ∀ i, (∀ n, i ≤ n → n < i + l.length → σi n = σi' n) →
      topLoop σi i l = topLoop σi' i l := by
  induction l with
  | nil =>
      intro i _
      rfl
  | cons c rest ih =>
      intro i h
      obtain ⟨name, city, rating, reviews⟩ := c
      simp only [topLoop, List.cons.injEq]
      constructor
      · have hc : σi i = σi' i := h i (le_refl i) (by simp)
        rw [hc]
      · exact ih (i + 1) fun n h1 h2 => h n (by omega)
          (by simp only [List.length_cons]; omega)

/-- C8 counterexample: the `/` route's response body is an HTML string, not
a `jsonify` payload, refuting the claim that every route (including `/`)
returns a JSON body. -/
theorem home_body_not_json :
    (routeResponse Route.home zStreamInt zStreamRat 0).body.isJson =
      false := rfl

/-- C8 amended: every exposed route answers with HTTP status 200; the `/`
route returns an HTML body while every other route returns a JSON body;
an unrecognized trend-period parameter is handled by the 7-day default,
yielding the same response as `/api/trends/7d`, rather than an error. -/
theorem routes_status_spec (route : Route) (σi : ℕ → ℤ) (σr : ℕ → ℚ)
    (today : ℤ) :
    (routeResponse route σi σr today).status = 200 ∧
    (routeResponse route σi σr today).body.isJson =
      (if route = Route.home then false else true) ∧
    (∀ q : String, q ≠ "24h" → q ≠ "30d" → q ≠ "90d" →
      routeResponse (Route.trends q) σi σr today =
        routeResponse (Route.trends ("7d")) σi σr today) := by
  refine ⟨?_, ?_, ?_⟩
  · cases route <;> rfl
  · cases route <;> simp [routeResponse, Body.isJson]
  · intro q h1 h2 h3
    have hd : daysOf q = 7 := by
      unfold daysOf
      split_ifs <;> simp_all
    have h7 : daysOf ("7d") = 7 := rfl
    simp [routeResponse, get_trends, hd, h7]

/-- C8 amended witness: the unrecognized period `xx`, instantiated
concretely. -/
theorem routes_status_spec_witness :
    (routeResponse (Route.trends ("xx")) zStreamInt zStreamRat 0).status =
      200 ∧
    routeResponse (Route.trends ("xx")) zStreamInt zStreamRat 0 =
      routeResponse (Route.trends ("7d")) zStreamInt zStreamRat 0 :=
  ⟨(routes_status_spec (Route.trends ("xx")) zStreamInt zStreamRat 0).1,
   (routes_status_spec (Route.trends ("xx")) zStreamInt zStreamRat 0).2.2
     ("xx") (by decide) (by decide) (by decide)⟩

/-- C9: every handler is a pure function of its route parameter, the clock
and the values it draws from the random source: two runs whose random
streams agree on the (finitely many) positions the handler reads, with the
same clock, produce equal responses. -/
theorem handler_purity_spec (route : Route) (σi σi' : ℕ → ℤ)
    (σr σr' : ℕ → ℚ) (today : ℤ)
    (hi : ∀ n, n < intDraws route → σi n = σi' n)
    (hr : ∀ n, n < ratDraws route → σr n = σr' n) :
    routeResponse route σi σr today = routeResponse route σi' σr' today := by
  cases route with
  | home => rfl
  | metrics =>
      simp only [routeResponse]
      rw [hi 0 (by simp [intDraws]), hi 1 (by simp [intDraws]),
        hi 2 (by simp [intDraws]), hi 3 (by simp [intDraws]),
        hr 0 (by simp [ratDraws]), hr 1 (by simp [ratDraws])]
  | trends p =>
      have ht : get_trends p σi σr today = get_trends p σi' σr' today := by
        unfold get_trends
        apply List.map_congr_left
        intro i hmem
        rw [List.mem_range] at hmem
        unfold trendPoint
        rw [hi (2 * i) (by simp only [intDraws]; omega),
          hi (2 * i + 1) (by simp only [intDraws]; omega),
          hr i (by simp only [ratDraws]; omega)]
      simp [routeResponse, ht]
  | locationsTop =>
      have hlen : (cities.take 10).length = 10 := rfl
      have ht : topLoop σi 0 (cities.take 10) =
          topLoop σi' 0 (cities.take 10) :=
        topLoop_congr σi σi' (cities.take 10) 0 fun n _ h2 =>
          hi n (by rw [hlen] at h2; simpa [intDraws] using h2)
      simp [routeResponse, get_top_locations, ht]
  | locationsAttention => rfl
  | ratingDistribution => rfl
  | alertsRecent =>
      simp only [routeResponse]
      rw [hr 0 (by simp [ratDraws])]
  | exportExcel => rfl

/-- C9 witness: the `/api/metrics` handler run on two integer streams that
agree on the four positions it reads, instantiated concretely. -/
theorem handler_purity_spec_witness :
    routeResponse Route.metrics zStreamInt zStreamRat 0 =
      routeResponse Route.metrics altStreamInt zStreamRat 0 :=
  handler_purity_spec Route.metrics zStreamInt altStreamInt
    zStreamRat zStreamRat 0
    (fun n hn => by
      simp only [intDraws] at hn
      simp [zStreamInt, altStreamInt, hn])
    (fun n _ => rfl)

end WebServer
